import Mathlib

/-!
Verification of the internship recommender (app/recommender.py).

The Python source is shallowly embedded: strings are Lean `String`s,
floats are exact rationals (`ℚ`), pandas data frames are lists of
`Posting` records, and numpy similarity arrays are `List ℚ`.  The
TF-IDF vector spaces themselves are external library code (sklearn),
so the similarity values they produce enter the model as function
parameters; every theorem quantifies over them.
-/

/-! ### Python-style string primitives -/

/-- Python `str.lower()` (ASCII, as all catalog data is ASCII). -/
def pyLower (s : String) : String := ⟨s.data.map Char.toLower⟩

/-- Whitespace test matching Python `str.strip()` / `str.split()`. -/
def isWS (c : Char) : Bool := c == ' ' || c == '\t' || c == '\n' || c == '\r'

/-- Python `str.strip()`: drop leading and trailing whitespace. -/
def pyStrip (s : String) : String :=
  ⟨((s.data.dropWhile isWS).reverse.dropWhile isWS).reverse⟩

/-- Python `s.replace(a, b)` for single-character `a`, `b`. -/
def replaceCharWith (a b : Char) (s : String) : String :=
  ⟨s.data.map (fun c => if c == a then b else c)⟩

/-- Python `s.replace(a, '')` for a single-character `a`. -/
def removeChar (a : Char) (s : String) : String :=
  ⟨s.data.filter (fun c => c != a)⟩

/-- Helper for `splitWS`: accumulate the current word (reversed). -/
def splitWSAux : List Char → List Char → List String
  | [], acc => if acc.isEmpty then [] else [⟨acc.reverse⟩]
  | c :: cs, acc =>
    if isWS c then
      if acc.isEmpty then splitWSAux cs []
      else (⟨acc.reverse⟩ : String) :: splitWSAux cs []
    else splitWSAux cs (c :: acc)

/-- Python `str.split()` with no argument: split on whitespace runs,
dropping empty pieces. -/
def splitWS (s : String) : List String := splitWSAux s.data []

/-- Whether the first list starts with the second (char lists). -/
def listStartsWith : List Char → List Char → Bool
  | _, [] => true
  | [], _ :: _ => false
  | a :: as, b :: bs => a == b && listStartsWith as bs

/-- Helper for `pyIn`: does `needle` occur inside `hay`? -/
def listHasSub (needle : List Char) : List Char → Bool
  | [] => needle.isEmpty
  | c :: cs => listStartsWith (c :: cs) needle || listHasSub needle cs

/-- Python `needle in hay` substring containment. -/
def pyIn (needle hay : String) : Bool := listHasSub needle.data hay.data

/-- Python `t[:1] == c` / `t.startswith(c)` for a single character. -/
def firstCharIs (c : Char) (s : String) : Bool :=
  match s.data with
  | [] => false
  | d :: _ => d == c

/-! ### Education synonym sets (`EDU_GROUPS` in recommender.py) -/

def undergraduateGroup : List String :=
  ["b.tech", "btech", "b.e", "be", "b.sc", "bsc", "b.a", "ba", "bba",
   "bcom", "b.com", "bca", "bachelor", "bachelors"]

def postGraduateGroup : List String :=
  ["m.tech", "mtech", "m.sc", "msc", "m.a", "ma", "mba", "mcom",
   "masters", "master"]

def phdGroup : List String := ["phd", "doctor", "doctoral"]

/-- `EDU_GROUPS` as the insertion-ordered key/value list of the
Python dict. -/
def EDU_GROUPS : List (String × List String) :=
  [("undergraduate", undergraduateGroup),
   ("post graduate", postGraduateGroup),
   ("phd", phdGroup)]

/-! ### Education string normalisation and tokenisation -/

/-- `normalize_edu_string`: lowercase, turn `.`, `/`, `-` into spaces,
collapse whitespace runs, trim. -/
def normalize_edu_string (s : String) : String :=
  if s = "" then ""
  else
    let s1 := pyLower s
    let s2 := replaceCharWith '-' ' '
      (replaceCharWith '/' ' ' (replaceCharWith '.' ' ' s1))
    pyStrip (" ".intercalate (splitWS s2))

/-- `internship_edu_tokens`: normalise, replace commas by spaces, split
on whitespace, strip, drop empties, deduplicate (the Python `set`,
modelled as a first-occurrence-ordered list). -/
def internship_edu_tokens (s : String) : List String :=
  let r := normalize_edu_string s
  (((splitWS (replaceCharWith ',' ' ' r)).map pyStrip).filter
    (fun p => p != "")).eraseDups

/-! ### Tier ranking (`token_to_rank`, `internship_required_rank`,
`candidate_rank_from_string`) -/

/-- `token_to_rank`: ordinal education tier of one requirement token. -/
def token_to_rank (token : String) : Nat :=
  if token = "" then 0
  else
    let t := pyStrip (pyLower token)
    if t = "any" ∨ t = "any degree" ∨ t = "any graduate" then 0
    else if pyIn "10" t then 1
    else if pyIn "12" t then 2
    else if undergraduateGroup.contains t then 3
    else if postGraduateGroup.contains t then 4
    else if phdGroup.contains t then 5
    else if firstCharIs 'b' t || pyIn "bach" t then 3
    else if firstCharIs 'm' t || pyIn "master" t then 4
    else if pyIn "phd" t || pyIn "doctor" t then 5
    else 3

/-- `internship_required_rank`: maximum tier over a posting's
requirement tokens; empty or exactly "any" means no restriction. -/
def internship_required_rank (s : String) : Nat :=
  if s = "" ∨ pyLower (pyStrip s) = "any" ∨ pyLower (pyStrip s) = "" then 0
  else
    let toks := internship_edu_tokens s
    if toks = [] then 0
    else (toks.map token_to_rank).foldl Nat.max 0

/-- The token loop of `candidate_rank_from_string`: the first token
matching any rule decides; a token matching none is skipped; 3 if the
list is exhausted. -/
def candidate_token_rank_scan : List String → Nat
  | [] => 3
  | t :: ts =>
    if postGraduateGroup.contains t || firstCharIs 'm' t || pyIn "master" t
      then 4
    else if undergraduateGroup.contains t || firstCharIs 'b' t ||
        pyIn "bachelor" t then 3
    else if pyIn "phd" t || pyIn "doctor" t then 5
    else if pyIn "10" t then 1
    else if pyIn "12" t then 2
    else candidate_token_rank_scan ts

/-- `candidate_rank_from_string`: the candidate's education tier. -/
def candidate_rank_from_string (s0 : String) : Nat :=
  if s0 = "" then 0
  else
    let s := pyStrip (pyLower s0)
    if s = "undergraduate" then 3
    else if s = "post graduate" ∨ s = "postgraduate" then 4
    else if s = "phd" ∨ s = "doctor" ∨ s = "doctoral" then 5
    else
      candidate_token_rank_scan
        (((splitWS (replaceCharWith '/' ' ' (replaceCharWith '.' ' ' s))).map
          pyStrip).filter (fun t => t != ""))

/-! ### `education_match_score` (graded education match for scoring) -/

/-- Python `cand in EDU_GROUPS` key lookup. -/
def edu_group_lookup (cand : String) : Option (List String) :=
  if cand = "undergraduate" then some undergraduateGroup
  else if cand = "post graduate" then some postGraduateGroup
  else if cand = "phd" then some phdGroup
  else none

/-- The float literal 0.8 of the source, as a normalised rational. -/
def qPoint8 : ℚ := ⟨4, 5, by decide, by decide⟩

/-- The float literal 0.5 of the source, as a normalised rational. -/
def qPoint5 : ℚ := ⟨1, 2, by decide, by decide⟩

theorem qPoint8_eq : qPoint8 = 4 / 5 := by
  rw [qPoint8, Rat.mk'_eq_divInt, Rat.divInt_eq_div]; norm_num

theorem qPoint5_eq : qPoint5 = 1 / 2 := by
  rw [qPoint5, Rat.mk'_eq_divInt, Rat.divInt_eq_div]; norm_num

/-- The per-token loop of `education_match_score`: exact match (spaces
removed) gives 1, substring overlap gives 4/5, first hit wins. -/
def edu_scan_tokens (cand_token : String) : List String → Option ℚ
  | [] => none
  | t :: ts =>
    if cand_token = removeChar ' ' t then some 1
    else if pyIn cand_token t || pyIn t cand_token then some qPoint8
    else edu_scan_tokens cand_token ts

/-- The `EDU_GROUPS.items()` loop of `education_match_score`: the first
group any requirement token relates to decides — 1 if the candidate
string occurs in the group name, else 1/2. -/
def edu_group_scan (cand : String) (toks : List String) :
    List (String × List String) → Option ℚ
  | [] => none
  | (gname, gtoks) :: rest =>
    if toks.any (fun t => gtoks.contains t ||
        gtoks.any (fun gt => pyIn gt t || pyIn t gt)) then
      if pyIn cand gname then some 1 else some qPoint5
    else edu_group_scan cand toks rest

/-- `education_match_score(candidate_edu, intern_req_edu)`. -/
def education_match_score (candidate_edu intern_req_edu : String) : ℚ :=
  let intern_req := pyLower (pyStrip intern_req_edu)
  if intern_req = "" ∨ intern_req = "any" ∨ intern_req = "any graduate" ∨
      intern_req = "any degree" then 1
  else
    let cand := normalize_edu_string candidate_edu
    let intern_tokens := internship_edu_tokens intern_req
    if cand = "" then 1
    else
      match edu_group_lookup cand with
      | some group =>
        if intern_tokens.any (fun t => group.contains t) then 1
        else if intern_tokens.any
            (fun t => group.any (fun g => pyIn g t || pyIn t g)) then 1
        else 0
      | none =>
        let cand_token := removeChar ' ' cand
        match edu_scan_tokens cand_token intern_tokens with
        | some v => v
        | none =>
          match edu_group_scan cand intern_tokens EDU_GROUPS with
          | some v => v
          | none => 0

/-! ### Data model -/

/-- One catalog row (a prepared pandas row in the source). -/
structure Posting where
  internshipId : Nat
  title : String
  company : String
  description : String
  requiredEducation : String
  sector : String
  location : String
  skills : String
deriving DecidableEq, Repr

/-- One scoring request's input. -/
structure Candidate where
  education : String
  skills : List String
  sector : List String
  location : List String
deriving DecidableEq, Repr

/-- A posting with the per-request score columns attached. -/
structure ScoredRow where
  posting : Posting
  score : ℚ
  skill_sim : ℚ
  desc_sim : ℚ
  sector_match : ℚ
  location_match : ℚ
  education_score : ℚ
deriving DecidableEq, Repr

/-! ### Signal weights -/

/-- The five-signal weight table. -/
structure Weights where
  skill_sim : ℚ
  desc_sim : ℚ
  sector : ℚ
  location : ℚ
  education : ℚ
deriving DecidableEq, Repr

/-- The configured raw weights of the `WEIGHTS` dict. -/
def RAW_WEIGHTS : Weights :=
  { skill_sim := 60 / 100, desc_sim := 10 / 100, sector := 12 / 100,
    location := 10 / 100, education := 8 / 100 }

/-- `_total = sum(WEIGHTS.values())`. -/
def Weights.total (w : Weights) : ℚ :=
  w.skill_sim + w.desc_sim + w.sector + w.location + w.education

/-- The normalisation loop dividing each weight by the total. -/
def normalizeWeights (w : Weights) : Weights :=
  { skill_sim := w.skill_sim / w.total, desc_sim := w.desc_sim / w.total,
    sector := w.sector / w.total, location := w.location / w.total,
    education := w.education / w.total }

/-- The module-level `WEIGHTS` after normalisation. -/
def WEIGHTS : Weights := normalizeWeights RAW_WEIGHTS

/-- The weighted combination producing `final` in the scoring loop. -/
def final_score (w : Weights) (s_skill s_desc s_sector s_loc s_edu : ℚ) : ℚ :=
  w.skill_sim * s_skill + w.desc_sim * s_desc + w.sector * s_sector +
    w.location * s_loc + w.education * s_edu

/-! ### Per-row categorical signals -/

/-- The sector signal: 1 iff the raw sector is non-empty and its
lowercased, trimmed form equals some candidate-preferred sector. -/
def sector_match_score (sector : String) (cand_sectors : List String) : ℚ :=
  if sector ≠ "" ∧ cand_sectors.any (fun s => pyStrip (pyLower sector) == s)
    then 1 else 0

/-- Delimiters of `intern_location_tokens` (`re.split` char class). -/
def isLocDelim (c : Char) : Bool := c == ',' || c == ';' || c == '/' || c == '|'

/-- Helper for `splitOnLocDelims`. -/
def splitLocAux : List Char → List Char → List String
  | [], acc => [⟨acc.reverse⟩]
  | c :: cs, acc =>
    if isLocDelim c then (⟨acc.reverse⟩ : String) :: splitLocAux cs []
    else splitLocAux cs (c :: acc)

/-- `re.split` on the location delimiter class (empty pieces kept). -/
def splitOnLocDelims (s : String) : List String := splitLocAux s.data []

/-- `intern_location_tokens`: split, strip+lowercase, drop empties. -/
def intern_location_tokens (loc : String) : List String :=
  if loc = "" then []
  else ((splitOnLocDelims loc).map (fun p => pyLower (pyStrip p))).filter
    (fun p => p != "")

/-- The location signal: 1 iff some candidate location token equals,
contains or is contained in some posting location token. -/
def location_match_score (loc : String) (cand_locations : List String) : ℚ :=
  let toks := intern_location_tokens loc
  if cand_locations ≠ [] ∧ toks ≠ [] ∧ cand_locations.any
      (fun c => toks.any (fun t => c == t || pyIn c t || pyIn t c))
    then 1 else 0

/-! ### Scoring loop -/

/-- One iteration of the scoring loop at row index `i`: similarity
entries beyond the array length silently default to 0. -/
def score_row (cand_sectors cand_locations : List String)
    (cand_education : String) (skillSims descSims : List ℚ)
    (i : Nat) (row : Posting) : ScoredRow :=
  let s_skill := skillSims.getD i 0
  let s_desc := descSims.getD i 0
  let s_sector := sector_match_score row.sector cand_sectors
  let s_loc := location_match_score row.location cand_locations
  let s_edu := education_match_score cand_education row.requiredEducation
  { posting := row,
    score := final_score WEIGHTS s_skill s_desc s_sector s_loc s_edu * 100,
    skill_sim := s_skill, desc_sim := s_desc, sector_match := s_sector,
    location_match := s_loc, education_score := s_edu }

/-- The whole scoring loop over the (possibly filtered) catalog. -/
def score_rows (cand_sectors cand_locations : List String)
    (cand_education : String) (skillSims descSims : List ℚ)
    (rows : List Posting) : List ScoredRow :=
  rows.enum.map (fun p =>
    score_row cand_sectors cand_locations cand_education skillSims descSims
      p.1 p.2)

/-! ### Ranking -/

/-- The `sort_values` key: descending score, then skill_sim, then
sector_match, then location_match, then desc_sim — `rankRel a b` says
`a` may come before `b`. -/
def rankRel (a b : ScoredRow) : Prop :=
  b.score < a.score ∨ (b.score = a.score ∧
    (b.skill_sim < a.skill_sim ∨ (b.skill_sim = a.skill_sim ∧
      (b.sector_match < a.sector_match ∨ (b.sector_match = a.sector_match ∧
        (b.location_match < a.location_match ∨
          (b.location_match = a.location_match ∧
            b.desc_sim ≤ a.desc_sim)))))))

instance : DecidableRel rankRel := fun a b => by
  unfold rankRel; infer_instance

/-- The sort key packaged as a lexicographic tuple (used to derive
totality and transitivity of `rankRel`). -/
def rankKey (r : ScoredRow) : ℚ ×ₗ (ℚ ×ₗ (ℚ ×ₗ (ℚ ×ₗ ℚ))) :=
  toLex (r.score, toLex (r.skill_sim, toLex (r.sector_match,
    toLex (r.location_match, r.desc_sim))))

theorem rankRel_iff_key (a b : ScoredRow) :
    rankRel a b ↔ rankKey b ≤ rankKey a := by
  simp [rankRel, rankKey, Prod.Lex.le_iff]

instance : IsTotal ScoredRow rankRel :=
  ⟨fun a b => by
    rw [rankRel_iff_key, rankRel_iff_key]
    exact le_total (rankKey b) (rankKey a)⟩

instance : IsTrans ScoredRow rankRel :=
  ⟨fun a b c hab hbc => by
    rw [rankRel_iff_key] at *
    exact le_trans hbc hab⟩

/-- The multi-key descending sort of the scored rows. -/
def sortRanked (l : List ScoredRow) : List ScoredRow :=
  l.insertionSort rankRel

/-! ### The full pipeline -/

/-- The education eligibility filter inside `get_recommendations`:
keep a posting iff its required rank does not exceed the candidate
rank. -/
def eligibleFilter (df : List Posting) (candidate : Candidate) :
    List Posting :=
  let cand_rank := candidate_rank_from_string (pyStrip (pyLower
    candidate.education))
  df.filter (fun row =>
    internship_required_rank row.requiredEducation ≤ cand_rank)

/-- `get_recommendations`.  The cosine similarities against the
passed-in vector spaces (`matDescSim`, `matSkillSim`) and against
freshly rebuilt ones (`buildDescSim`, `buildSkillSim`) are parameters:
the sklearn TF-IDF math is outside the repository.  The pandas length
contract on the score-column assignments is modelled separately by
`score_rows_checked`; by `score_rows_checked_aligned` this definition
coincides with the program on aligned similarity arrays, the only ones
the program returns from rather than raising on. -/
def get_recommendations (df : List Posting)
    (matDescSim matSkillSim : Candidate → List ℚ)
    (buildDescSim buildSkillSim : List Posting → Candidate → List ℚ)
    (candidate : Candidate) (top_k : Nat) : List ScoredRow :=
  let filtered_df := eligibleFilter df candidate
  if filtered_df = [] then []
  else
    let use_df := if filtered_df.length = df.length then df else filtered_df
    let desc_sim := if filtered_df.length = df.length
      then matDescSim candidate else buildDescSim filtered_df candidate
    let skill_sim := if filtered_df.length = df.length
      then matSkillSim candidate else buildSkillSim filtered_df candidate
    let cand_sectors := candidate.sector.map (fun s => pyStrip (pyLower s))
    let cand_locations := candidate.location.map (fun l => pyStrip (pyLower l))
    let cand_education := pyStrip (pyLower candidate.education)
    (sortRanked (score_rows cand_sectors cand_locations cand_education
      skill_sim desc_sim use_df)).take top_k

/-! ### Concrete fixtures used by witnesses and counterexamples -/

/-- A posting requiring a doctorate (requirement tier 5). -/
def postingPhd : Posting :=
  { internshipId := 1, title := "research intern", company := "acme",
    description := "lab work", requiredEducation := "phd", sector := "it",
    location := "mumbai", skills := "python" }

/-- A posting with no education requirement (requirement tier 0). -/
def postingAny : Posting :=
  { internshipId := 2, title := "sales intern", company := "acme",
    description := "field work", requiredEducation := "any", sector := "",
    location := "", skills := "sql" }

/-- A candidate whose education descriptor is empty. -/
def candidateNoEdu : Candidate :=
  { education := "", skills := [], sector := [], location := [] }

/-- A candidate at the undergraduate tier. -/
def candidateUndergrad : Candidate :=
  { education := "undergraduate", skills := ["python"], sector := ["it"],
    location := ["mumbai"] }

/-- Claim C1 is false on the code: the education filter keeps a posting
only when its required rank is at most the candidate rank, and an empty
education descriptor yields candidate rank 0 — so a tier-5 ("phd")
posting is removed for an empty-education candidate, not kept. -/
theorem claim_C1_counterexample :
    candidate_rank_from_string "" = 0 ∧
      internship_required_rank "phd" = 5 ∧
      eligibleFilter [postingPhd] candidateNoEdu = [] ∧
      eligibleFilter [postingPhd, postingAny] candidateNoEdu =
        [postingAny] := by
  refine ⟨by decide, by decide, by decide, by decide⟩

/-- Claim C1 amended: a candidate with an empty education descriptor is
given tier 0, and the filter then keeps exactly the postings whose
required tier is 0 — tier 0 is the most restrictive case, not an
unrestricted one. -/
theorem claim_C1_amended (df : List Posting) (c : Candidate)
    (h : c.education = "") :
    eligibleFilter df c =
      df.filter
        (fun row => internship_required_rank row.requiredEducation = 0) := by
  simp only [eligibleFilter, h]
  have h0 : candidate_rank_from_string (pyStrip (pyLower "")) = 0 := by
    decide
  rw [h0]
  simp [Nat.le_zero]

/-- Witness for `claim_C1_amended` at a concrete catalog and candidate. -/
theorem claim_C1_amended_witness :
    candidateNoEdu.education = "" ∧
      eligibleFilter [postingPhd, postingAny] candidateNoEdu =
        List.filter
          (fun row => internship_required_rank row.requiredEducation = 0)
          [postingPhd, postingAny] :=
  ⟨rfl, claim_C1_amended [postingPhd, postingAny] candidateNoEdu rfl⟩

/-- Claim C2: the requirement-tier function does send the empty string
and "any" to tier 0, but "any graduate" and "any degree" come out at
tier 3, because the whole-string check only covers "any" and "" and the
token-level check of those phrases is unreachable (tokens never contain
spaces) — `token_to_rank` itself maps the intact phrases to 0, showing
the intended behaviour. -/
theorem claim_C2_any_phrases :
    internship_required_rank "" = 0 ∧
      internship_required_rank "any" = 0 ∧
      internship_required_rank "any graduate" = 3 ∧
      internship_required_rank "any degree" = 3 ∧
      token_to_rank "any graduate" = 0 ∧
      token_to_rank "any degree" = 0 ∧
      internship_edu_tokens "any graduate" = ["any", "graduate"] ∧
      internship_edu_tokens "any degree" = ["any", "degree"] := by
  refine ⟨by decide, by decide, by decide, by decide, by decide, by decide,
    by decide, by decide⟩

/-- Claim C6: the combined score is monotone in the skill-similarity
signal — raising `s_skill` with every other signal fixed never lowers
the weighted combination. -/
theorem claim_C6_skill_monotone (s s' d sec loc edu : ℚ) (h : s ≤ s') :
    final_score WEIGHTS s d sec loc edu ≤
      final_score WEIGHTS s' d sec loc edu := by
  have hw : WEIGHTS.skill_sim = 3 / 5 := by
    norm_num [WEIGHTS, normalizeWeights, RAW_WEIGHTS, Weights.total]
  simp only [final_score, hw]
  linarith

/-- Witness for `claim_C6_skill_monotone` at concrete signal values. -/
theorem claim_C6_skill_monotone_witness :
    (0 : ℚ) ≤ 1 ∧
      final_score WEIGHTS 0 0 0 0 0 ≤ final_score WEIGHTS 1 0 0 0 0 :=
  ⟨by norm_num, claim_C6_skill_monotone 0 1 0 0 0 0 (by norm_num)⟩

/-- Claim C7: an empty catalog or a filter that removes every posting
yields the empty result list (the model is a total function, mirroring
the early return before any vector-space work). -/
theorem claim_C7_empty_ok :
    (∀ f1 f2 b1 b2 c k, get_recommendations [] f1 f2 b1 b2 c k = []) ∧
      ∀ df f1 f2 b1 b2 c k, eligibleFilter df c = [] →
        get_recommendations df f1 f2 b1 b2 c k = [] := by
  constructor
  · intro f1 f2 b1 b2 c k
    simp [get_recommendations, eligibleFilter]
  · intro df f1 f2 b1 b2 c k h
    simp [get_recommendations, h]

/-- Witness for `claim_C7_empty_ok`: a doctorate-only catalog filtered
against an undergraduate candidate empties out and returns `[]`. -/
theorem claim_C7_empty_ok_witness :
    eligibleFilter [postingPhd] candidateUndergrad = [] ∧
      get_recommendations [postingPhd] (fun _ => [1]) (fun _ => [1])
        (fun _ _ => [1]) (fun _ _ => [1]) candidateUndergrad 5 = [] :=
  ⟨by decide,
    claim_C7_empty_ok.2 [postingPhd] (fun _ => [1]) (fun _ => [1])
      (fun _ _ => [1]) (fun _ _ => [1]) candidateUndergrad 5 (by decide)⟩

/-- Claim C9: dividing each of five strictly positive weights by their
total always produces weights summing to 1, and the skill weight keeps
strictly dominating every other weight it dominated before. -/
theorem claim_C9_weight_normalisation (w : Weights)
    (h1 : 0 < w.skill_sim) (h2 : 0 < w.desc_sim) (h3 : 0 < w.sector)
    (h4 : 0 < w.location) (h5 : 0 < w.education) :
    (normalizeWeights w).total = 1 ∧
      (w.desc_sim < w.skill_sim →
        (normalizeWeights w).desc_sim < (normalizeWeights w).skill_sim) ∧
      (w.sector < w.skill_sim →
        (normalizeWeights w).sector < (normalizeWeights w).skill_sim) ∧
      (w.location < w.skill_sim →
        (normalizeWeights w).location < (normalizeWeights w).skill_sim) ∧
      (w.education < w.skill_sim →
        (normalizeWeights w).education < (normalizeWeights w).skill_sim) := by
  have ht : 0 < w.total := by
    unfold Weights.total; linarith
  refine ⟨?_, ?_, ?_, ?_, ?_⟩
  · have hs : (normalizeWeights w).total = w.total / w.total := by
      unfold normalizeWeights Weights.total
      ring
    rw [hs, div_self ht.ne']
  · intro h
    simp only [normalizeWeights]
    exact (div_lt_div_iff_of_pos_right ht).2 h
  · intro h
    simp only [normalizeWeights]
    exact (div_lt_div_iff_of_pos_right ht).2 h
  · intro h
    simp only [normalizeWeights]
    exact (div_lt_div_iff_of_pos_right ht).2 h
  · intro h
    simp only [normalizeWeights]
    exact (div_lt_div_iff_of_pos_right ht).2 h

/-- Witness for `claim_C9_weight_normalisation` at the configured
weight table. -/
theorem claim_C9_weight_normalisation_witness :
    0 < RAW_WEIGHTS.skill_sim ∧
      (normalizeWeights RAW_WEIGHTS).total = 1 :=
  ⟨by norm_num [RAW_WEIGHTS],
    (claim_C9_weight_normalisation RAW_WEIGHTS (by norm_num [RAW_WEIGHTS])
      (by norm_num [RAW_WEIGHTS]) (by norm_num [RAW_WEIGHTS])
      (by norm_num [RAW_WEIGHTS]) (by norm_num [RAW_WEIGHTS])).1⟩

/-- Claim C10: a posting whose stored (already normalised) sector field
is the empty string gets sector signal 0 for every candidate preference
list — the non-empty guard precedes the equality test, so even a
candidate list containing the empty string does not match. -/
theorem claim_C10_empty_sector :
    (∀ cs, sector_match_score "" cs = 0) ∧
      ∀ (row : Posting) cs cl ce ss ds i, row.sector = "" →
        (score_row cs cl ce ss ds i row).sector_match = 0 := by
  constructor
  · intro cs
    simp [sector_match_score]
  · intro row cs cl ce ss ds i h
    simp [score_row, sector_match_score, h]

/-- Witness for `claim_C10_empty_sector`: the empty-sector posting with
a candidate whose preference list contains the empty string. -/
theorem claim_C10_empty_sector_witness :
    postingAny.sector = "" ∧
      (score_row [""] [] "" [] [] 0 postingAny).sector_match = 0 :=
  ⟨rfl, claim_C10_empty_sector.2 postingAny [""] [] "" [] [] 0 rfl⟩

/-- Scored rows with identical combined score but different skill
similarity (0.3 vs 0.8), for the tie-breaking scenario. -/
def tieRowLow : ScoredRow :=
  { posting := postingAny, score := 50,
    skill_sim := ⟨3, 10, by decide, by decide⟩, desc_sim := 0,
    sector_match := 0, location_match := 0, education_score := 0 }

/-- See `tieRowLow`: the higher-skill row of the tie pair. -/
def tieRowHigh : ScoredRow :=
  { posting := postingPhd, score := 50, skill_sim := qPoint8,
    desc_sim := 0, sector_match := 0, location_match := 0,
    education_score := 0 }

/-- The scoring stage including the score-column assignments
(`use_df['skill_sim'] = skill_sim`, `use_df['desc_sim'] = desc_sim`):
pandas raises `ValueError` whenever an assigned array's length differs
from the frame's row count, modelled as `Except.error`; on aligned
arrays the assigned columns carry exactly the values the scoring loop
already read, so the scored rows pass through unchanged. -/
def score_rows_checked (cand_sectors cand_locations : List String)
    (cand_education : String) (skillSims descSims : List ℚ)
    (rows : List Posting) : Except String (List ScoredRow) :=
  let scored := score_rows cand_sectors cand_locations cand_education
    skillSims descSims rows
  if skillSims.length = rows.length then
    if descSims.length = rows.length then Except.ok scored
    else Except.error "Length of values does not match length of index"
  else Except.error "Length of values does not match length of index"

/-- On aligned similarity arrays the checked scoring stage returns
exactly the rows of `score_rows`, so the pipeline model coincides with
the program wherever the program does not raise. -/
theorem score_rows_checked_aligned (cs cl : List String) (ce : String)
    (ss ds : List ℚ) (rows : List Posting)
    (hss : ss.length = rows.length) (hds : ds.length = rows.length) :
    score_rows_checked cs cl ce ss ds rows =
      Except.ok (score_rows cs cl ce ss ds rows) := by
  simp only [score_rows_checked]
  rw [if_pos hss, if_pos hds]

/-- Claim C3: when the row count of either similarity array disagrees
with the number of postings being scored, the scoring stage fails —
the pandas length contract on the score-column assignments raises —
instead of returning scores for the misaligned postings. -/
theorem claim_C3_mismatch_fails (cs cl : List String) (ce : String)
    (ss ds : List ℚ) (rows : List Posting)
    (h : ss.length ≠ rows.length ∨ ds.length ≠ rows.length) :
    score_rows_checked cs cl ce ss ds rows =
      Except.error "Length of values does not match length of index" := by
  simp only [score_rows_checked]
  rcases h with h | h
  · rw [if_neg h]
  · by_cases hss : ss.length = rows.length
    · rw [if_pos hss, if_neg h]
    · rw [if_neg hss]

/-- Witness for `claim_C3_mismatch_fails`: two postings scored against
a one-entry skill-similarity array raise rather than return rows. -/
theorem claim_C3_mismatch_fails_witness :
    (([qPoint5] : List ℚ).length ≠
        ([postingPhd, postingAny] : List Posting).length ∨
      ([] : List ℚ).length ≠
        ([postingPhd, postingAny] : List Posting).length) ∧
      score_rows_checked [] [] "" [qPoint5] [] [postingPhd, postingAny] =
        Except.error "Length of values does not match length of index" :=
  ⟨Or.inl (by decide),
    claim_C3_mismatch_fails [] [] "" [qPoint5] [] [postingPhd, postingAny]
      (Or.inl (by decide))⟩

/-- Claim C4: the pipeline returns exactly `min top_k (number of
eligible postings)` results, for any catalog, candidate, similarity
model and `top_k ≥ 1`; over-asking is not an error. -/
theorem claim_C4_result_length (df : List Posting)
    (f1 f2 : Candidate → List ℚ)
    (b1 b2 : List Posting → Candidate → List ℚ)
    (c : Candidate) (k : Nat) (_hk : 1 ≤ k) :
    (get_recommendations df f1 f2 b1 b2 c k).length =
      min k (eligibleFilter df c).length := by
  simp only [get_recommendations]
  split
  next h => rw [h]; simp
  next h =>
    rw [List.length_take, sortRanked, List.length_insertionSort]
    have hsr : ∀ ss ds rows,
        (score_rows (c.sector.map fun s => pyStrip (pyLower s))
          (c.location.map fun l => pyStrip (pyLower l))
          (pyStrip (pyLower c.education)) ss ds rows).length =
          rows.length := by
      intro ss ds rows
      simp [score_rows]
    by_cases hl : (eligibleFilter df c).length = df.length
    · simp [hl, hsr]
    · simp [hl, hsr]

/-- Witness for `claim_C4_result_length`: Scenario 5 — requesting 3
results from a 1-eligible-posting catalog returns exactly 1 row. -/
theorem claim_C4_result_length_witness :
    1 ≤ 3 ∧
      (get_recommendations [postingPhd, postingAny] (fun _ => [1, 1])
          (fun _ => [1, 1]) (fun _ _ => [1]) (fun _ _ => [1])
          candidateUndergrad 3).length =
        min 3 (eligibleFilter [postingPhd, postingAny]
          candidateUndergrad).length :=
  ⟨by decide,
    claim_C4_result_length [postingPhd, postingAny] (fun _ => [1, 1])
      (fun _ => [1, 1]) (fun _ _ => [1]) (fun _ _ => [1])
      candidateUndergrad 3 (by decide)⟩

/-- Claim C5: every pipeline output is sorted by the multi-key
descending order — combined score first, ties broken by skill_sim,
then sector_match, then location_match, then desc_sim (`rankRel`) —
and in the equal-score scenario the 0.8-skill row precedes the
0.3-skill row. -/
theorem claim_C5_sort_order :
    (∀ df f1 f2 b1 b2 c k,
        (get_recommendations df f1 f2 b1 b2 c k).Sorted rankRel) ∧
      sortRanked [tieRowLow, tieRowHigh] = [tieRowHigh, tieRowLow] := by
  constructor
  · intro df f1 f2 b1 b2 c k
    simp only [get_recommendations]
    split
    · exact List.sorted_nil
    · exact List.Pairwise.sublist (List.take_sublist _ _)
        (List.sorted_insertionSort rankRel _)
  · decide

/-- Any value the token loop of `education_match_score` returns is
1 or 0.8. -/
theorem edu_scan_tokens_values (ct : String) (ts : List String) (v : ℚ)
    (h : edu_scan_tokens ct ts = some v) : v = 1 ∨ v = qPoint8 := by
  induction ts with
  | nil => simp [edu_scan_tokens] at h
  | cons t ts ih =>
    unfold edu_scan_tokens at h
    split at h
    · exact Or.inl (Option.some.inj h).symm
    · split at h
      · exact Or.inr (Option.some.inj h).symm
      · exact ih h

/-- Any value the group loop of `education_match_score` returns is
1 or 0.5. -/
theorem edu_group_scan_values (cand : String) (toks : List String)
    (gs : List (String × List String)) (v : ℚ)
    (h : edu_group_scan cand toks gs = some v) : v = 1 ∨ v = qPoint5 := by
  induction gs with
  | nil => simp [edu_group_scan] at h
  | cons g gs ih =>
    obtain ⟨gname, gtoks⟩ := g
    unfold edu_group_scan at h
    split at h
    · split at h
      · exact Or.inl (Option.some.inj h).symm
      · exact Or.inr (Option.some.inj h).symm
    · exact ih h

/-- Claim C8: `education_match_score` only takes the values 0, 0.5,
0.8, 1, and returns 1 whenever the requirement is empty or one of the
"any" phrases, or the candidate descriptor is empty. -/
theorem claim_C8_education_grades (c r : String) :
    (education_match_score c r = 0 ∨ education_match_score c r = 1 / 2 ∨
      education_match_score c r = 4 / 5 ∨ education_match_score c r = 1) ∧
      (r = "" ∨ r = "any" ∨ r = "any graduate" ∨ r = "any degree" →
        education_match_score c r = 1) ∧
      (c = "" → education_match_score c r = 1) := by
  refine ⟨?_, ?_, ?_⟩
  · rw [show (1 : ℚ) / 2 = qPoint5 from qPoint5_eq.symm,
      show (4 : ℚ) / 5 = qPoint8 from qPoint8_eq.symm]
    simp only [education_match_score]
    split
    · exact Or.inr (Or.inr (Or.inr rfl))
    · split
      · exact Or.inr (Or.inr (Or.inr rfl))
      · split
        · split
          · exact Or.inr (Or.inr (Or.inr rfl))
          · split
            · exact Or.inr (Or.inr (Or.inr rfl))
            · exact Or.inl rfl
        · split
          · next v heq =>
            rcases edu_scan_tokens_values _ _ _ heq with h | h
            · exact Or.inr (Or.inr (Or.inr h))
            · exact Or.inr (Or.inr (Or.inl h))
          · split
            · next v heq =>
              rcases edu_group_scan_values _ _ _ _ heq with h | h
              · exact Or.inr (Or.inr (Or.inr h))
              · exact Or.inr (Or.inl h)
            · exact Or.inl rfl
  · intro h
    rcases h with h | h | h | h <;>
      (subst h
       simp only [education_match_score]
       rw [if_pos (by decide)])
  · intro h
    subst h
    simp only [education_match_score]
    split
    · rfl
    · rw [if_pos (by decide)]

/-- Witness for `claim_C8_education_grades` at concrete descriptors. -/
theorem claim_C8_education_grades_witness :
    (("" : String) = "" ∨ ("" : String) = "any" ∨
        ("" : String) = "any graduate" ∨ ("" : String) = "any degree") ∧
      education_match_score "bsc" "" = 1 ∧
      education_match_score "" "phd" = 1 :=
  ⟨Or.inl rfl, (claim_C8_education_grades "bsc" "").2.1 (Or.inl rfl),
    (claim_C8_education_grades "" "phd").2.2 rfl⟩
